import Mathlib

/-!
Verification of the serial-terminal session engine of this repository
(`src/App.tsx`, `src/types.ts`, and the analysis-request builder in the
service module).  The TypeScript code is shallowly embedded: pure helpers
become Lean functions, the React state becomes an explicit `SerialState`
record, and the effectful handlers (`sendData`, `handleSignalChange`, the
auto-repeat timer effect) become state-transition functions that also
return the list of operations they perform on the serial channel.
Machine integers are `Nat` (all byte values are < 256 where it matters),
strings are Lean `String`s over code points, and fallible code returns
`Option`.
-/

namespace SerialTerm

/-! ## Codec helpers (App.tsx lines 22-37) -/

/-- A character kept by the regex replace `str.replace(/[^0-9A-Fa-f]/g, '')`
in `parseHexString`: an ASCII hex digit. -/
def isHexDigitChar (c : Char) : Bool :=
  decide ((48 ≤ c.toNat ∧ c.toNat ≤ 57) ∨ (65 ≤ c.toNat ∧ c.toNat ≤ 70) ∨
    (97 ≤ c.toNat ∧ c.toNat ≤ 102))

/-- Numeric value `parseInt` assigns to a single hex digit
(`'0'..'9'`, `'A'..'F'`, `'a'..'f'`); `0` on other characters, which never
reach it in `parseHexString`. -/
def hexDigitValue (c : Char) : Nat :=
  if 48 ≤ c.toNat ∧ c.toNat ≤ 57 then c.toNat - 48
  else if 65 ≤ c.toNat ∧ c.toNat ≤ 70 then c.toNat - 55
  else if 97 ≤ c.toNat ∧ c.toNat ≤ 102 then c.toNat - 87
  else 0

/-- The decoding loop of `parseHexString` (App.tsx 26-28): consume two hex
digits at a time, `parseInt(clean.substring(i, i+2), 16) = 16*v(c1) + v(c2)`.
The input always has even length at the call site. -/
def parsePairs : List Char → List Nat
  | c1 :: c2 :: rest => (16 * hexDigitValue c1 + hexDigitValue c2) :: parsePairs rest
  | _ => []

/-- `parseHexString` (App.tsx 22-30): strip every character outside
`[0-9A-Fa-f]`, return `null` (here `none`) when zero or an odd number of
digits remain, else decode pairs of digits into bytes. -/
def parseHexString (str : String) : Option (List Nat) :=
  let clean := str.toList.filter isHexDigitChar
  if clean.length = 0 ∨ clean.length % 2 ≠ 0 then none
  else some (parsePairs clean)

/-- JS `b.toString(16)`: the hexadecimal digits of `b`, lowercase
(`Nat.toDigits 16` renders exactly this, `"0"` for zero). -/
def jsToHexChars (b : Nat) : List Char := Nat.toDigits 16 b

/-- JS `.padStart(2, '0')`: left-pad with `'0'` up to length 2. -/
def padStart2 (l : List Char) : List Char :=
  if l.length < 2 then List.replicate (2 - l.length) '0' ++ l else l

/-- One byte of `bufferToHex`:
`b.toString(16).padStart(2, '0').toUpperCase()` (App.tsx 35). -/
def byteToHexUpper (b : Nat) : List Char :=
  (padStart2 (jsToHexChars b)).map Char.toUpper

/-- `bufferToHex` (App.tsx 33-37): every byte as two uppercase hex digits,
joined by `' '`; `Array.join(' ')` is character-level intercalation. -/
def bufferToHex (buffer : List Nat) : String :=
  ⟨List.intercalate [' '] (buffer.map byteToHexUpper)⟩

/-- UTF-8 encoding of one code point, as `TextEncoder.encode` emits it. -/
def utf8EncodeCharNat (c : Nat) : List Nat :=
  if c < 128 then [c]
  else if c < 2048 then [192 + c / 64, 128 + c % 64]
  else if c < 65536 then [224 + c / 4096, 128 + c / 64 % 64, 128 + c % 64]
  else [240 + c / 262144, 128 + c / 4096 % 64, 128 + c / 64 % 64, 128 + c % 64]

/-- `new TextEncoder().encode(s)` as a byte list. -/
def utf8Encode (s : String) : List Nat :=
  s.toList.flatMap (fun c => utf8EncodeCharNat c.toNat)

/-- JS `String.prototype.length`: the number of UTF-16 code units
(code points at or above `0x10000` count twice). -/
def jsStringLength (s : String) : Nat :=
  (s.toList.map (fun c => if c.toNat < 65536 then 1 else 2)).sum

/-! ## Data model (src/types.ts) -/

/-- `LogEntry['type']` in types.ts: `'rx' | 'tx' | 'info' | 'error'`. -/
inductive LogType
  | rx
  | tx
  | info
  | error
deriving DecidableEq

/-- `LogEntry` (types.ts).  The `id` (a `Math.random` tag) and `timestamp`
(a `Date`) are environment-supplied values that no claim depends on; they
are omitted from the embedding. -/
structure LogEntry where
  type : LogType
  data : String
  hex : String
deriving DecidableEq

/-- `Parity` enum (types.ts). -/
inductive Parity
  | none
  | even
  | odd
deriving DecidableEq

/-- `FlowControl` enum (types.ts). -/
inductive FlowControl
  | none
  | hardware
deriving DecidableEq

/-- `SerialConfig` (types.ts); the numeric enums `DataBits`/`StopBits` are
their numeric values. -/
structure SerialConfig where
  baudRate : Nat
  dataBits : Nat
  stopBits : Nat
  parity : Parity
  bufferSize : Nat
  flowControl : FlowControl
deriving DecidableEq

/-- `SendConfig` (types.ts). -/
structure SendConfig where
  isHex : Bool
  addCRLF : Bool
  autoRepeat : Bool
  repeatInterval : Nat
deriving DecidableEq

/-- The slice of a Web Serial `SerialPort` the claims observe: whether its
writable half is available (`port.writable`). -/
structure Port where
  writable : Bool
deriving DecidableEq

/-- The fields of `SerialState` (types.ts / App.tsx 64-96) that the session
logic reads or writes.  Display-only toggles (`autoScroll`,
`showTimestamp`, `showAiSettings`) and the non-key AI settings are omitted;
`aiApiKey` is `state.aiConfig.apiKey`. -/
structure SerialState where
  isConnected : Bool
  port : Option Port
  config : SerialConfig
  sendConfig : SendConfig
  logs : List LogEntry
  isHexMode : Bool
  dtr : Bool
  rts : Bool
  rxCount : Nat
  txCount : Nat
  aiApiKey : String
deriving DecidableEq

/-- The initial `useState` value (App.tsx 64-96) with no saved state. -/
def initialState : SerialState :=
  { isConnected := false
    port := none
    config := { baudRate := 115200, dataBits := 8, stopBits := 1,
                parity := .none, bufferSize := 1024, flowControl := .none }
    sendConfig := { isHex := false, addCRLF := false, autoRepeat := false,
                    repeatInterval := 1000 }
    logs := []
    isHexMode := false
    dtr := false
    rts := false
    rxCount := 0
    txCount := 0
    aiApiKey := "" }

/-- JS `arr.slice(-n)`: the last `min n (length arr)` elements. -/
def jsSliceLast (n : Nat) (l : List α) : List α := l.drop (l.length - n)

/-- The state right after a successful `handleConnect`: a connected,
writable port attached to the otherwise-initial state. -/
def openState : SerialState :=
  { initialState with isConnected := true, port := some { writable := true } }

/-! ## Transcript log (`addLog`, App.tsx 120-144) -/

/-- `addLog` (App.tsx 120-144).  The hex view comes from `rawBytes` when
given, else from re-encoding `data` as UTF-8 and hex-rendering it (the
inline code at lines 125-127 computes exactly `bufferToHex` of the UTF-8
bytes).  The state update keeps `[...prev.logs.slice(-2000), newEntry]`
and bumps `rxCount`/`txCount` by `rawBytes.length` when `rawBytes` is
given, else by the JS length of `data`. -/
def addLog (st : SerialState) (type : LogType) (data : String)
    (rawBytes : Option (List Nat)) : SerialState :=
  let hex : String :=
    match rawBytes with
    | some rb => bufferToHex rb
    | none => bufferToHex (utf8Encode data)
  let newEntry : LogEntry := { type := type, data := data, hex := hex }
  let inc : Nat :=
    match rawBytes with
    | some rb => rb.length
    | none => jsStringLength data
  { st with
    logs := jsSliceLast 2000 st.logs ++ [newEntry]
    rxCount := if type = .rx then st.rxCount + inc else st.rxCount
    txCount := if type = .tx then st.txCount + inc else st.txCount }

/-- One call to `addLog` as data, for reasoning about sequences of appends. -/
structure AppendOp where
  type : LogType
  data : String
  rawBytes : Option (List Nat)

/-- A sequence of `addLog` calls applied in order. -/
def applyAppends (st : SerialState) (ops : List AppendOp) : SerialState :=
  ops.foldl (fun s o => addLog s o.type o.data o.rawBytes) st

/-- Sum of the raw-byte lengths of the `rx` appends of a sequence (the
spec's received-byte total). -/
def rxRawSum (ops : List AppendOp) : Nat :=
  ((ops.filter (fun o => decide (o.type = LogType.rx))).map
    (fun o => (o.rawBytes.getD []).length)).sum

/-- Sum of the raw-byte lengths of the `tx` appends of a sequence (the
spec's transmitted-byte total). -/
def txRawSum (ops : List AppendOp) : Nat :=
  ((ops.filter (fun o => decide (o.type = LogType.tx))).map
    (fun o => (o.rawBytes.getD []).length)).sum

/-- `n` consecutive informational appends, to exercise the retention cap. -/
def appendNTimes (n : Nat) (st : SerialState) : SerialState :=
  match n with
  | 0 => st
  | n + 1 => addLog (appendNTimes n st) .info "x" none

/-! ## Write path (`sendData`, App.tsx 256-303) -/

/-- The `!state.port || !state.port.writable` guard of `sendData`,
negated: `true` exactly when a port with an available writable half is
attached. -/
def portWritable (st : SerialState) : Bool :=
  match st.port with
  | none => false
  | some p => p.writable

/-- A payload handed to `sendData`: raw bytes (file upload) or a string
(text area / quick command). -/
inductive SendContent
  | bytes (b : List Nat)
  | text (s : String)
deriving DecidableEq

/-- `sendData` (App.tsx 256-303) as a pure transition: result state plus
the list of byte sequences written to the channel (`writer.write` calls).
Acquiring and releasing the writer lock has no observable effect in this
model and is not represented; the channel write is assumed not to throw,
as every claim concerns the paths before or at the write. -/
def sendData (st : SerialState) (content : SendContent)
    (isHexInput : Bool) : SerialState × List (List Nat) :=
  if portWritable st = false then
    (addLog st .error "串口未连接" none, [])
  else
    match content with
    | .bytes b =>
        (addLog st .tx ("[FILE] Sent " ++ toString b.length ++ " bytes") (some b), [b])
    | .text s =>
        if isHexInput then
          match parseHexString s with
          | none => (addLog st .error "Hex 格式错误 (应为偶数位 0-9 A-F)" none, [])
          | some bs => (addLog st .tx ("[HEX] " ++ bufferToHex bs) (some bs), [bs])
        else
          let textToSend := if st.sendConfig.addCRLF && !(s.endsWith "\r\n")
            then s ++ "\r\n" else s
          let dataToSend := utf8Encode textToSend
          (addLog st .tx textToSend (some dataToSend), [dataToSend])

/-! ## Control signals (`handleSignalChange`, App.tsx 322-334) -/

/-- Which control line `handleSignalChange` was asked to set. -/
inductive SignalKind
  | sigDtr
  | sigRts
deriving DecidableEq

/-- Display name used in the info log line (`signal.toUpperCase()`). -/
def signalName : SignalKind → String
  | .sigDtr => "DTR"
  | .sigRts => "RTS"

/-- `handleSignalChange` (App.tsx 322-334) as a pure transition: result
state plus the `setSignals` calls issued on the channel, each recorded as
the `(dataTerminalReady, requestToSend)` pair.  `setFails` models the
awaited `port.setSignals` throwing, which the source catches and logs. -/
def handleSignalChange (st : SerialState) (signal : SignalKind)
    (value : Bool) (setFails : Bool) : SerialState × List (Bool × Bool) :=
  if st.port.isNone || !st.isConnected then (st, [])
  else
    let dtrOut := if signal = .sigDtr then value else st.dtr
    let rtsOut := if signal = .sigRts then value else st.rts
    if setFails then
      (addLog st .error "无法设置信号" none, [(dtrOut, rtsOut)])
    else
      let st' :=
        match signal with
        | .sigDtr => { st with dtr := value }
        | .sigRts => { st with rts := value }
      (addLog st' .info
        ("信号设置: " ++ signalName signal ++ " = " ++ (if value then "ON" else "OFF"))
        none, [(dtrOut, rtsOut)])

/-! ## Auto-repeat timer (App.tsx 203-211 and 336-352)

The timer machinery is event-driven JavaScript: `window.setInterval`
returns a handle stored in `autoSendTimerRef`, `window.clearInterval`
guarantees no callback runs after it returns, and all handlers run
atomically on the single event loop.  The model tracks the ref and the
state fields the effect reads, and counts timer-triggered `sendData`
invocations. -/

/-- State of the timer machinery: `autoSendTimerRef.current`, the
`sendConfig.autoRepeat` flag, the connection flag, the pending input
buffer, and a supply of fresh interval handles. -/
structure TimerState where
  timer : Option Nat
  autoRepeat : Bool
  isConnected : Bool
  inputBuffer : String
  nextHandle : Nat
deriving DecidableEq

/-- Events of the timer machinery:
`tick` - an armed interval callback fires and calls `sendData`;
`effectRun` - the effect at App.tsx 336-352 runs (arm when
`autoRepeat && isConnected && inputBuffer` and no timer is armed,
otherwise clear);
`disconnect` - `handleDisconnect` (App.tsx 203-211) clears the interval,
nulls the ref and forces `autoRepeat := false`, `isConnected := false`;
`toggleOff` / `toggleOn` - the user changes the auto-repeat checkbox. -/
inductive TimerEvent
  | tick
  | effectRun
  | disconnect
  | toggleOff
  | toggleOn
deriving DecidableEq

/-- One event step; the second component counts the `sendData` invocations
the event triggers through the timer. -/
def timerStep (s : TimerState) : TimerEvent → TimerState × Nat
  | .tick => if s.timer.isSome then (s, 1) else (s, 0)
  | .effectRun =>
      if s.autoRepeat && s.isConnected && !(s.inputBuffer = "") then
        if s.timer.isSome then (s, 0)
        else ({ s with timer := some s.nextHandle, nextHandle := s.nextHandle + 1 }, 0)
      else ({ s with timer := none }, 0)
  | .disconnect => ({ s with timer := none, autoRepeat := false, isConnected := false }, 0)
  | .toggleOff => ({ s with autoRepeat := false }, 0)
  | .toggleOn => ({ s with autoRepeat := true }, 0)

/-- Run a sequence of timer events, accumulating the number of
timer-triggered `sendData` invocations. -/
def timerRun (s : TimerState) : List TimerEvent → TimerState × Nat
  | [] => (s, 0)
  | e :: evts =>
      let r := timerStep s e
      let r' := timerRun r.1 evts
      (r'.1, r.2 + r'.2)

/-! ## Analysis request builder (App.tsx 354-376 and the service module) -/

/-- The composed effect of
`l.data.replace(/\r/g, '\\r').replace(/\n/g, '\\n')` (App.tsx 368): both
replaces substitute single characters and the first introduces no `'\n'`,
so one character-level pass renders them. -/
def escapeCtrl (s : String) : String :=
  ⟨s.toList.flatMap (fun c =>
    if c = '\r' then ['\\', 'r']
    else if c = '\n' then ['\\', 'n']
    else [c])⟩

/-- `l.type.toUpperCase()` for the four log kinds. -/
def logTypeUpper : LogType → String
  | .rx => "RX"
  | .tx => "TX"
  | .info => "INFO"
  | .error => "ERROR"

/-- One rendered line of the analysis blob (App.tsx 367-370):
the entry kind uppercased, a colon, and the hex view or the
control-escaped text view. -/
def analysisLine (hexMode : Bool) (e : LogEntry) : String :=
  logTypeUpper e.type ++ ": " ++ (if hexMode then e.hex else escapeCtrl e.data)

/-- `combinedLogs` (App.tsx 365-371): the last 100 entries, rendered and
joined with newlines. -/
def combinedLogs (logs : List LogEntry) (hexMode : Bool) : String :=
  String.intercalate "\n" ((jsSliceLast 100 logs).map (analysisLine hexMode))

/-- JS `str.slice(-n)` on a string: its last `min n (length)` characters. -/
def jsStrSliceLast (n : Nat) (s : String) : String :=
  ⟨s.toList.drop (s.toList.length - n)⟩

/-- Text of the `analyzeLogs` prompt template before the interpolated
log block. -/
def promptHead : String :=
  "\n    你是一位资深的嵌入式系统工程师和通信协议专家。\n    以下是一段串口通信日志（Serial Port Logs）。\n    请对日志进行深入分析，重点关注以下几点：\n    \n    1. **协议识别**：分析通信模式，识别是否使用了标准协议（如 Modbus, AT 指令, NMEA-0183 等）或者是某种自定义帧结构。\n    2. **数据解析**：尝试解读数据帧的含义（例如：命令头、数据长度、有效载荷、校验和）。\n    3. **异常检测**：指出任何潜在的通信错误、超时、重试或异常的数据模式。\n    4. **调试建议**：如果存在问题，请提供具体的排查步骤或建议。\n\n    日志数据 (Log Data):\n    "

/-- Text of the `analyzeLogs` prompt template after the interpolated
log block. -/
def promptTail : String :=
  " \n\n    请使用专业的中文进行回答，并使用 Markdown 格式优化排版。\n  "

/-- The prompt assembled by `analyzeLogs` in the service module: the
template embeds `logs.slice(-5000)`, the last 5000 characters of the
combined log text. -/
def analysisPrompt (logs : String) : String :=
  promptHead ++ jsStrSliceLast 5000 logs ++ promptTail

/-- `handleAiAnalysis` (App.tsx 354-376) up to the service call: `none`
when it early-returns (no API key configured, or empty log), otherwise
the prompt handed to the text-generation service. -/
def handleAiAnalysisPrompt (st : SerialState) : Option String :=
  if st.aiApiKey = "" then none
  else if st.logs.length = 0 then none
  else some (analysisPrompt (combinedLogs st.logs st.isHexMode))

/-! ## Helper lemmas -/

theorem intercalate_single (s x : List α) : List.intercalate s [x] = x := by
  simp [List.intercalate]

theorem intercalate_cons2 (s x y : List α) (t : List (List α)) :
    List.intercalate s (x :: y :: t) = x ++ s ++ List.intercalate s (y :: t) := by
  simp [List.intercalate, List.intersperse]

set_option maxRecDepth 4000 in
theorem byteToHexUpper_fin (b : Fin 256) :
    (byteToHexUpper b.val).length = 2 ∧
    (byteToHexUpper b.val).all isHexDigitChar = true ∧
    parsePairs (byteToHexUpper b.val) = [b.val] := by
  revert b; decide

theorem intercalate_map_cons2 {α β : Type} (f : α → List β) (s : List β)
    (b b' : α) (t : List α) :
    List.intercalate s (List.map f (b :: b' :: t)) =
      f b ++ s ++ List.intercalate s (List.map f (b' :: t)) := by
  rw [List.map_cons, List.map_cons, intercalate_cons2]

theorem byteToHexUpper_spec (b : Nat) (hb : b < 256) :
    ∃ c1 c2, byteToHexUpper b = [c1, c2] ∧ isHexDigitChar c1 = true ∧
      isHexDigitChar c2 = true ∧ 16 * hexDigitValue c1 + hexDigitValue c2 = b := by
  obtain ⟨hlen0, hall0, hparse0⟩ := byteToHexUpper_fin ⟨b, hb⟩
  have hlen : (byteToHexUpper b).length = 2 := hlen0
  have hall : (byteToHexUpper b).all isHexDigitChar = true := hall0
  have hparse : parsePairs (byteToHexUpper b) = [b] := hparse0
  rcases hl : byteToHexUpper b with _ | ⟨c1, _ | ⟨c2, _ | ⟨c3, t⟩⟩⟩ <;>
    rw [hl] at hlen hall hparse
  · simp at hlen
  · simp at hlen
  · refine ⟨c1, c2, rfl, ?_, ?_, ?_⟩
    · simp [List.all_cons] at hall; exact hall.1
    · simp [List.all_cons] at hall; exact hall.2
    · simp [parsePairs] at hparse; exact hparse
  · simp at hlen

theorem filter_hex_intercalate (bs : List Nat) :
    (∀ x ∈ bs, x < 256) →
    (List.intercalate [' '] (bs.map byteToHexUpper)).filter isHexDigitChar =
      bs.flatMap byteToHexUpper := by
  induction bs with
  | nil => intro _; rfl
  | cons b t ih =>
    intro h
    obtain ⟨c1, c2, hpair, h1, h2, _⟩ := byteToHexUpper_spec b (h b (by simp))
    have ht : ∀ x ∈ t, x < 256 := fun x hx => h x (by simp [hx])
    cases t with
    | nil => simp [intercalate_single, hpair, List.filter, h1, h2]
    | cons b' t' =>
      rw [intercalate_map_cons2, List.filter_append, List.filter_append,
        List.flatMap_cons, ih ht, hpair]
      simp [List.filter, h1, h2]
      decide

theorem parsePairs_flat (bs : List Nat) :
    (∀ x ∈ bs, x < 256) → parsePairs (bs.flatMap byteToHexUpper) = bs := by
  induction bs with
  | nil => intro _; rfl
  | cons b t ih =>
    intro h
    obtain ⟨c1, c2, hpair, _, _, hval⟩ := byteToHexUpper_spec b (h b (by simp))
    rw [List.flatMap_cons, hpair, List.cons_append, List.cons_append, List.nil_append,
      parsePairs, hval, ih (fun x hx => h x (by simp [hx]))]

theorem flat_hex_length (bs : List Nat) :
    (∀ x ∈ bs, x < 256) → (bs.flatMap byteToHexUpper).length = 2 * bs.length := by
  induction bs with
  | nil => intro _; rfl
  | cons b t ih =>
    intro h
    obtain ⟨c1, c2, hpair, _, _, _⟩ := byteToHexUpper_spec b (h b (by simp))
    rw [List.flatMap_cons, List.length_append, hpair, ih (fun x hx => h x (by simp [hx]))]
    simp; omega

theorem addLog_logs_length (st : SerialState) (type : LogType) (data : String)
    (rb : Option (List Nat)) :
    (addLog st type data rb).logs.length = min st.logs.length 2000 + 1 := by
  simp [addLog, jsSliceLast]
  omega

theorem appendNTimes_length (n : Nat) :
    (appendNTimes n initialState).logs.length = min n 2001 := by
  induction n with
  | zero => rfl
  | succ n ih =>
    show (addLog (appendNTimes n initialState) .info "x" none).logs.length = _
    rw [addLog_logs_length, ih]
    omega

/-! ## Claim theorems -/

/-- C1: the spec (and the code's own comment "Keep last 2000 entries")
say the log length never exceeds 2000 after any append.  The update
`[...prev.logs.slice(-2000), newEntry]` keeps the last 2000 previous
entries and then appends one more, so from an empty log 2001 consecutive
appends leave 2001 entries: the invariant `len <= 2000` is violated.  -/
theorem log_cap_exceeded_after_2001_appends :
    (appendNTimes 2001 initialState).logs.length = 2001 ∧
    2000 < (appendNTimes 2001 initialState).logs.length := by
  have h := appendNTimes_length 2001
  constructor <;> omega

/-- C2 counterexample: for the empty byte sequence the roundtrip fails:
`bufferToHex [] = ""`, and `parseHexString` rejects an empty digit string
with a FormatError (`none`), so `hexToBytes (bytesToHex []) ≠ some []`. -/
theorem hex_roundtrip_fails_on_empty :
    parseHexString (bufferToHex []) = none ∧
    parseHexString (bufferToHex []) ≠ some [] := by
  constructor <;> decide

/-- C2 (amended): for every nonempty byte sequence `b` (bytes < 256, as a
`Uint8Array` guarantees), decoding the hex rendering recovers `b` exactly:
`parseHexString (bufferToHex b) = some b`. -/
theorem hex_roundtrip_nonempty (b : List Nat) (hne : b ≠ [])
    (hlt : ∀ x ∈ b, x < 256) : parseHexString (bufferToHex b) = some b := by
  have hf : (bufferToHex b).toList.filter isHexDigitChar = b.flatMap byteToHexUpper :=
    filter_hex_intercalate b hlt
  have hlen := flat_hex_length b hlt
  have hbl : b.length ≠ 0 := fun hz => hne (List.length_eq_zero.mp hz)
  simp only [parseHexString, hf, hlen]
  rw [if_neg (by omega)]
  rw [parsePairs_flat b hlt]

/-- Witness for C2's theorem at the byte sequence `[1, 171, 255, 0]`. -/
theorem hex_roundtrip_nonempty_witness :
    ([1, 171, 255, 0] : List Nat) ≠ [] ∧
    parseHexString (bufferToHex [1, 171, 255, 0]) = some [1, 171, 255, 0] :=
  ⟨by decide, hex_roundtrip_nonempty [1, 171, 255, 0] (by decide) (by decide)⟩

/-- C3: `parseHexString` fails (`none`) exactly when the digit count left
after stripping non-hex characters is zero or odd; and when that failure
occurs during a hex-mode send on an open connection, the send aborts with
only an error entry appended (so `txCount` is untouched) and nothing is
written to the channel. -/
theorem hex_format_error_aborts_send :
    (∀ s : String, parseHexString s = none ↔
        ((s.toList.filter isHexDigitChar).length = 0 ∨
         (s.toList.filter isHexDigitChar).length % 2 = 1)) ∧
    (∀ (st : SerialState) (s : String), portWritable st = true →
        parseHexString s = none →
        sendData st (SendContent.text s) true =
          (addLog st .error "Hex 格式错误 (应为偶数位 0-9 A-F)" none, []) ∧
        (sendData st (SendContent.text s) true).1.txCount = st.txCount ∧
        (sendData st (SendContent.text s) true).2 = []) := by
  constructor
  · intro s
    by_cases h : ((s.toList.filter isHexDigitChar).length = 0 ∨
        (s.toList.filter isHexDigitChar).length % 2 ≠ 0)
    · simp only [parseHexString, if_pos h]
      constructor
      · intro _; omega
      · intro _; trivial
    · simp only [parseHexString, if_neg h]
      constructor
      · intro hc; exact absurd hc (by simp)
      · intro hc; omega
  · intro st s hw hp
    have he : sendData st (SendContent.text s) true =
        (addLog st .error "Hex 格式错误 (应为偶数位 0-9 A-F)" none, []) := by
      simp [sendData, hw, hp]
    refine ⟨he, ?_, by rw [he]⟩
    rw [he]
    simp [addLog]

/-- Witness for C3's theorem: the input string "ABC" keeps three hex
digits after stripping (odd), on a freshly opened connection. -/
theorem hex_format_error_aborts_send_witness :
    (parseHexString "ABC" = none ↔
      ((("ABC" : String).toList.filter isHexDigitChar).length = 0 ∨
       (("ABC" : String).toList.filter isHexDigitChar).length % 2 = 1)) ∧
    (portWritable openState = true ∧
     (sendData openState
        (SendContent.text "ABC") true =
        (addLog openState
          .error "Hex 格式错误 (应为偶数位 0-9 A-F)" none, []) ∧
      (sendData openState
        (SendContent.text "ABC") true).1.txCount =
        openState.txCount ∧
      (sendData openState
        (SendContent.text "ABC") true).2 = [])) :=
  ⟨hex_format_error_aborts_send.1 "ABC",
   by decide,
   hex_format_error_aborts_send.2 _ "ABC" (by decide) (by decide)⟩

/-- C4: with no port attached or its writable half unavailable (the code's
"not Open" test in `sendData`), any send of any payload fails by appending
the not-connected error entry and performs no channel write. -/
theorem send_not_connected_no_write (st : SerialState) (content : SendContent)
    (isHexInput : Bool) (h : portWritable st = false) :
    sendData st content isHexInput = (addLog st .error "串口未连接" none, []) ∧
    (sendData st content isHexInput).2 = [] ∧
    ((sendData st content isHexInput).1.logs.getLast?).map LogEntry.type =
      some LogType.error := by
  have he : sendData st content isHexInput = (addLog st .error "串口未连接" none, []) := by
    simp [sendData, h]
  refine ⟨he, by rw [he], ?_⟩
  rw [he]
  simp [addLog, List.getLast?_concat]

/-- Witness for C4's theorem: a text send from the initial (disconnected)
state. -/
theorem send_not_connected_no_write_witness :
    portWritable initialState = false ∧
    (sendData initialState (SendContent.text "hi") false =
      (addLog initialState .error "串口未连接" none, []) ∧
     (sendData initialState (SendContent.text "hi") false).2 = [] ∧
     ((sendData initialState (SendContent.text "hi") false).1.logs.getLast?).map
       LogEntry.type = some LogType.error) :=
  ⟨by decide, send_not_connected_no_write initialState (SendContent.text "hi") false (by decide)⟩

theorem addLog_rxCount (st : SerialState) (type : LogType) (data : String)
    (rb : Option (List Nat)) :
    (addLog st type data rb).rxCount =
      if type = .rx then st.rxCount + (match rb with
        | some b => b.length
        | none => jsStringLength data) else st.rxCount := rfl

theorem addLog_txCount (st : SerialState) (type : LogType) (data : String)
    (rb : Option (List Nat)) :
    (addLog st type data rb).txCount =
      if type = .tx then st.txCount + (match rb with
        | some b => b.length
        | none => jsStringLength data) else st.txCount := rfl

theorem applyAppends_cons (st : SerialState) (o : AppendOp) (ops : List AppendOp) :
    applyAppends st (o :: ops) = applyAppends (addLog st o.type o.data o.rawBytes) ops := by
  simp [applyAppends]

theorem rxRawSum_cons (o : AppendOp) (ops : List AppendOp) :
    rxRawSum (o :: ops) =
      (if o.type = LogType.rx then (o.rawBytes.getD []).length else 0) + rxRawSum ops := by
  by_cases h : o.type = LogType.rx <;> simp [rxRawSum, List.filter_cons, h]

theorem txRawSum_cons (o : AppendOp) (ops : List AppendOp) :
    txRawSum (o :: ops) =
      (if o.type = LogType.tx then (o.rawBytes.getD []).length else 0) + txRawSum ops := by
  by_cases h : o.type = LogType.tx <;> simp [txRawSum, List.filter_cons, h]

theorem addLog_counts_le (st : SerialState) (type : LogType) (data : String)
    (rb : Option (List Nat)) :
    st.rxCount ≤ (addLog st type data rb).rxCount ∧
    st.txCount ≤ (addLog st type data rb).txCount := by
  rw [addLog_rxCount, addLog_txCount]
  constructor <;> split <;> omega

theorem applyAppends_counts_mono (ops : List AppendOp) :
    ∀ st : SerialState,
      st.rxCount ≤ (applyAppends st ops).rxCount ∧
      st.txCount ≤ (applyAppends st ops).txCount := by
  induction ops with
  | nil => intro st; exact ⟨le_refl _, le_refl _⟩
  | cons o t ih =>
    intro st
    rw [applyAppends_cons]
    have h1 := addLog_counts_le st o.type o.data o.rawBytes
    have h2 := ih (addLog st o.type o.data o.rawBytes)
    exact ⟨le_trans h1.1 h2.1, le_trans h1.2 h2.2⟩

theorem applyAppends_counts (ops : List AppendOp) :
    ∀ st : SerialState,
      (∀ o ∈ ops, (o.type = LogType.rx ∨ o.type = LogType.tx) → o.rawBytes.isSome = true) →
      (applyAppends st ops).rxCount = st.rxCount + rxRawSum ops ∧
      (applyAppends st ops).txCount = st.txCount + txRawSum ops := by
  induction ops with
  | nil => intro st _; simp [applyAppends, rxRawSum, txRawSum]
  | cons o t ih =>
    intro st h
    have hrec := ih (addLog st o.type o.data o.rawBytes)
      (fun o' ho' => h o' (List.mem_cons_of_mem _ ho'))
    rw [applyAppends_cons, rxRawSum_cons, txRawSum_cons]
    obtain ⟨h1, h2⟩ := hrec
    rw [h1, h2, addLog_rxCount, addLog_txCount]
    rcases o with ⟨ty, da, rb⟩
    cases ty
    · obtain ⟨b, rfl⟩ := Option.isSome_iff_exists.mp
        (h _ (List.mem_cons_self _ _) (Or.inl rfl))
      simp; omega
    · obtain ⟨b, rfl⟩ := Option.isSome_iff_exists.mp
        (h _ (List.mem_cons_self _ _) (Or.inr rfl))
      simp; omega
    · simp
    · simp

/-- C5: after any sequence of appends in which every received or
transmitted append carries raw bytes (as every `addLog('rx', ...)` and
`addLog('tx', ...)` call site in App.tsx does), `rxCount` grows by exactly
the sum of the raw byte lengths of the `rx` appends and `txCount` by the
sum over the `tx` appends, so informational and error appends (and, for
each counter, the opposite direction) leave it unchanged; and both
counters are monotonically non-decreasing along the sequence. -/
theorem byte_counters_track_raw_lengths (st : SerialState) (ops : List AppendOp)
    (h : ∀ o ∈ ops, (o.type = LogType.rx ∨ o.type = LogType.tx) → o.rawBytes.isSome = true) :
    (applyAppends st ops).rxCount = st.rxCount + rxRawSum ops ∧
    (applyAppends st ops).txCount = st.txCount + txRawSum ops ∧
    ∀ ops1 ops2, ops = ops1 ++ ops2 →
      (applyAppends st ops1).rxCount ≤ (applyAppends st ops).rxCount ∧
      (applyAppends st ops1).txCount ≤ (applyAppends st ops).txCount := by
  refine ⟨(applyAppends_counts ops st h).1, (applyAppends_counts ops st h).2, ?_⟩
  intro ops1 ops2 hsplit
  subst hsplit
  have hsp : applyAppends st (ops1 ++ ops2) = applyAppends (applyAppends st ops1) ops2 := by
    simp [applyAppends, List.foldl_append]
  rw [hsp]
  exact applyAppends_counts_mono ops2 (applyAppends st ops1)

/-- Witness for C5's theorem: one rx append of 3 raw bytes, one info
append, one tx append of 1 raw byte and one error append, from the
initial state. -/
theorem byte_counters_track_raw_lengths_witness :
    (∀ o ∈ [⟨LogType.rx, "ab", some [1, 2, 255]⟩, ⟨LogType.info, "x", none⟩,
            ⟨LogType.tx, "y", some [7]⟩, ⟨LogType.error, "e", none⟩],
      (AppendOp.type o = LogType.rx ∨ AppendOp.type o = LogType.tx) →
        (AppendOp.rawBytes o).isSome = true) ∧
    ((applyAppends initialState
        [⟨LogType.rx, "ab", some [1, 2, 255]⟩, ⟨LogType.info, "x", none⟩,
         ⟨LogType.tx, "y", some [7]⟩, ⟨LogType.error, "e", none⟩]).rxCount =
      initialState.rxCount + rxRawSum
        [⟨LogType.rx, "ab", some [1, 2, 255]⟩, ⟨LogType.info, "x", none⟩,
         ⟨LogType.tx, "y", some [7]⟩, ⟨LogType.error, "e", none⟩] ∧
     (applyAppends initialState
        [⟨LogType.rx, "ab", some [1, 2, 255]⟩, ⟨LogType.info, "x", none⟩,
         ⟨LogType.tx, "y", some [7]⟩, ⟨LogType.error, "e", none⟩]).txCount =
      initialState.txCount + txRawSum
        [⟨LogType.rx, "ab", some [1, 2, 255]⟩, ⟨LogType.info, "x", none⟩,
         ⟨LogType.tx, "y", some [7]⟩, ⟨LogType.error, "e", none⟩] ∧
     ∀ ops1 ops2,
       ([⟨LogType.rx, "ab", some [1, 2, 255]⟩, ⟨LogType.info, "x", none⟩,
         ⟨LogType.tx, "y", some [7]⟩, ⟨LogType.error, "e", none⟩] : List AppendOp) =
         ops1 ++ ops2 →
       (applyAppends initialState ops1).rxCount ≤
         (applyAppends initialState
           [⟨LogType.rx, "ab", some [1, 2, 255]⟩, ⟨LogType.info, "x", none⟩,
            ⟨LogType.tx, "y", some [7]⟩, ⟨LogType.error, "e", none⟩]).rxCount ∧
       (applyAppends initialState ops1).txCount ≤
         (applyAppends initialState
           [⟨LogType.rx, "ab", some [1, 2, 255]⟩, ⟨LogType.info, "x", none⟩,
            ⟨LogType.tx, "y", some [7]⟩, ⟨LogType.error, "e", none⟩]).txCount) :=
  ⟨by decide,
   byte_counters_track_raw_lengths initialState
     [⟨LogType.rx, "ab", some [1, 2, 255]⟩, ⟨LogType.info, "x", none⟩,
      ⟨LogType.tx, "y", some [7]⟩, ⟨LogType.error, "e", none⟩] (by decide)⟩

/-- C6 counterexample: the claim says a signal set outside Open is
reported as an error entry in the transcript.  From the initial (Closed)
state the guard `if (!state.port || !state.isConnected) return;` exits
silently: no channel call is made and the transcript stays empty, so no
error entry is appended. -/
theorem signal_set_not_open_no_error_entry :
    (handleSignalChange initialState .sigDtr true false).1.logs = [] ∧
    (handleSignalChange initialState .sigDtr true false).2 = [] := by
  constructor <;> decide

/-- C6 (amended): attempting to set a control signal (`setDtr`/`setRts`)
in any state other than Open is a silent no-op: the state is returned
unchanged, no transcript entry is appended, and no `setSignals` call
reaches the channel (the handler is total, so it cannot crash). -/
theorem signal_set_not_open_silent (st : SerialState) (signal : SignalKind)
    (value setFails : Bool) (h : st.port = none ∨ st.isConnected = false) :
    handleSignalChange st signal value setFails = (st, []) := by
  rcases h with h | h <;> simp [handleSignalChange, h]

/-- Witness for C6's amended theorem at the initial (Closed) state. -/
theorem signal_set_not_open_silent_witness :
    (initialState.port = none ∨ initialState.isConnected = false) ∧
    handleSignalChange initialState .sigRts true false = (initialState, []) :=
  ⟨Or.inl rfl, signal_set_not_open_silent initialState .sigRts true false (Or.inl rfl)⟩

/-- C7: for a text-mode send on an open connection the line terminator is
appended before encoding exactly when `addCRLF` is enabled and the text
does not already end with `"\r\n"`; and in the spec scenario (open
connection, CRLF-append disabled, empty log) sending `"AT\r\n"` appends
exactly one transmitted entry, writes its 4 UTF-8 bytes to the channel,
and adds 4 to the transmitted-byte total. -/
theorem text_send_line_terminator (st : SerialState) :
    (∀ s : String, portWritable st = true →
      sendData st (SendContent.text s) false =
        (addLog st .tx
          (if st.sendConfig.addCRLF && !(s.endsWith "\r\n") then s ++ "\r\n" else s)
          (some (utf8Encode
            (if st.sendConfig.addCRLF && !(s.endsWith "\r\n") then s ++ "\r\n" else s))),
         [utf8Encode
            (if st.sendConfig.addCRLF && !(s.endsWith "\r\n") then s ++ "\r\n" else s)])) ∧
    (portWritable st = true → st.sendConfig.addCRLF = false → st.logs = [] →
      (sendData st (SendContent.text "AT\r\n") false).1.logs =
        [{ type := .tx, data := "AT\r\n", hex := bufferToHex (utf8Encode "AT\r\n") }] ∧
      (sendData st (SendContent.text "AT\r\n") false).1.txCount = st.txCount + 4 ∧
      (sendData st (SendContent.text "AT\r\n") false).2 = [utf8Encode "AT\r\n"] ∧
      (utf8Encode "AT\r\n").length = 4) := by
  constructor
  · intro s hw
    simp [sendData, hw]
  · intro hw hc hl
    have h4 : (utf8Encode "AT\r\n").length = 4 := by decide
    have he : sendData st (SendContent.text "AT\r\n") false =
        (addLog st .tx "AT\r\n" (some (utf8Encode "AT\r\n")), [utf8Encode "AT\r\n"]) := by
      simp [sendData, hw, hc]
    rw [he]
    refine ⟨?_, ?_, rfl, h4⟩
    · simp [addLog, hl, jsSliceLast]
    · simp [addLog, h4]

/-- Witness for C7's theorem: a freshly opened connection with the spec
scenario's line configuration (already the initial one) and CRLF-append
disabled. -/
theorem text_send_line_terminator_witness :
    (portWritable openState = true ∧
     sendData openState
        (SendContent.text "hello") false =
        (addLog openState .tx
          (if openState.sendConfig.addCRLF &&
              !(("hello" : String).endsWith "\r\n") then "hello" ++ "\r\n" else "hello")
          (some (utf8Encode
            (if openState.sendConfig.addCRLF &&
                !(("hello" : String).endsWith "\r\n") then "hello" ++ "\r\n" else "hello"))),
         [utf8Encode
            (if openState.sendConfig.addCRLF &&
                !(("hello" : String).endsWith "\r\n") then "hello" ++ "\r\n" else "hello")])) ∧
    ((sendData openState
        (SendContent.text "AT\r\n") false).1.logs =
      [{ type := .tx, data := "AT\r\n", hex := bufferToHex (utf8Encode "AT\r\n") }] ∧
     (sendData openState
        (SendContent.text "AT\r\n") false).1.txCount =
      openState.txCount + 4 ∧
     (sendData openState
        (SendContent.text "AT\r\n") false).2 = [utf8Encode "AT\r\n"] ∧
     (utf8Encode "AT\r\n").length = 4) :=
  ⟨⟨by decide,
    (text_send_line_terminator openState).1 "hello" (by decide)⟩,
   (text_send_line_terminator openState).2 (by decide) (by decide) (by decide)⟩

/-- C9: on an open connection with CRLF-append disabled, a non-hex send
of the empty text succeeds: one transmitted entry with empty text payload
(and empty hex view) is appended, exactly one channel write occurs and it
carries zero bytes, and the transmitted-byte total is unchanged. -/
theorem empty_text_send_succeeds (st : SerialState)
    (hw : portWritable st = true) (hc : st.sendConfig.addCRLF = false) :
    sendData st (SendContent.text "") false = (addLog st .tx "" (some []), [[]]) ∧
    (sendData st (SendContent.text "") false).1.logs =
      jsSliceLast 2000 st.logs ++ [{ type := LogType.tx, data := "", hex := "" }] ∧
    (sendData st (SendContent.text "") false).1.txCount = st.txCount ∧
    ((sendData st (SendContent.text "") false).2.map List.length) = [0] := by
  have h0 : utf8Encode "" = ([] : List Nat) := rfl
  have hb : bufferToHex [] = "" := rfl
  have he : sendData st (SendContent.text "") false =
      (addLog st .tx "" (some []), [[]]) := by
    simp [sendData, hw, hc, h0]
  rw [he]
  refine ⟨rfl, ?_, ?_, rfl⟩
  · simp [addLog, hb]
  · simp [addLog]

/-- Witness for C9's theorem at a freshly opened connection. -/
theorem empty_text_send_succeeds_witness :
    portWritable openState = true ∧
    (sendData openState
        (SendContent.text "") false =
      (addLog openState
        .tx "" (some []), [[]]) ∧
     (sendData openState
        (SendContent.text "") false).1.logs =
      jsSliceLast 2000 openState.logs ++
        [{ type := LogType.tx, data := "", hex := "" }] ∧
     (sendData openState
        (SendContent.text "") false).1.txCount =
      openState.txCount ∧
     ((sendData openState
        (SendContent.text "") false).2.map List.length) = [0]) :=
  ⟨by decide,
   empty_text_send_succeeds openState
     (by decide) (by decide)⟩

/-- C8: disarming releases the handle and stops all timer sends.
Part one: `handleDisconnect` clears the interval, nulls the ref and
forces the option off.  Part two: an effect run with the option off
leaves the ref null.  Part three: from any disarmed state (ref null,
option off), any sequence of further events that does not re-enable the
option triggers zero timer sends and keeps the handle released. -/
theorem auto_repeat_disarmed_no_sends :
    (∀ s : TimerState, (timerStep s .disconnect).1.timer = none ∧
      (timerStep s .disconnect).1.autoRepeat = false) ∧
    (∀ s : TimerState, s.autoRepeat = false → (timerStep s .effectRun).1.timer = none) ∧
    (∀ (s : TimerState) (evts : List TimerEvent),
      s.timer = none → s.autoRepeat = false → TimerEvent.toggleOn ∉ evts →
      (timerRun s evts).2 = 0 ∧ (timerRun s evts).1.timer = none) := by
  refine ⟨fun s => ⟨rfl, rfl⟩, fun s h => by simp [timerStep, h], ?_⟩
  intro s evts
  induction evts generalizing s with
  | nil => intro h1 _ _; exact ⟨rfl, h1⟩
  | cons e t ih =>
    intro h1 h2 h3
    have h3' : TimerEvent.toggleOn ∉ t := fun hm => h3 (List.mem_cons_of_mem _ hm)
    have hne : e ≠ TimerEvent.toggleOn := fun he => h3 (he ▸ List.mem_cons_self _ _)
    cases e with
    | tick =>
        have hstep : timerStep s .tick = (s, 0) := by simp [timerStep, h1]
        simp only [timerRun, hstep]
        have := ih s h1 h2 h3'
        simpa using this
    | effectRun =>
        have hstep : timerStep s .effectRun = ({ s with timer := none }, 0) := by
          simp [timerStep, h2]
        simp only [timerRun, hstep]
        have := ih { s with timer := none } rfl h2 h3'
        simpa using this
    | disconnect =>
        simp only [timerRun, timerStep]
        have := ih { s with timer := none, autoRepeat := false, isConnected := false }
          rfl rfl h3'
        simpa using this
    | toggleOff =>
        simp only [timerRun, timerStep]
        have := ih { s with autoRepeat := false } h1 rfl h3'
        simpa using this
    | toggleOn => exact absurd rfl hne

/-- Witness for C8's theorem: a disarmed state followed by ticks, an
effect run, a toggle-off and a disconnect produces zero timer sends. -/
theorem auto_repeat_disarmed_no_sends_witness :
    (TimerState.mk none false true "AT" 1).timer = none ∧
    (TimerState.mk none false true "AT" 1).autoRepeat = false ∧
    TimerEvent.toggleOn ∉ [TimerEvent.tick, TimerEvent.effectRun, TimerEvent.tick,
      TimerEvent.toggleOff, TimerEvent.tick, TimerEvent.disconnect, TimerEvent.tick] ∧
    ((timerRun (TimerState.mk none false true "AT" 1)
        [TimerEvent.tick, TimerEvent.effectRun, TimerEvent.tick, TimerEvent.toggleOff,
         TimerEvent.tick, TimerEvent.disconnect, TimerEvent.tick]).2 = 0 ∧
     (timerRun (TimerState.mk none false true "AT" 1)
        [TimerEvent.tick, TimerEvent.effectRun, TimerEvent.tick, TimerEvent.toggleOff,
         TimerEvent.tick, TimerEvent.disconnect, TimerEvent.tick]).1.timer = none) :=
  ⟨rfl, rfl, by decide,
   auto_repeat_disarmed_no_sends.2.2 (TimerState.mk none false true "AT" 1)
     [TimerEvent.tick, TimerEvent.effectRun, TimerEvent.tick, TimerEvent.toggleOff,
      TimerEvent.tick, TimerEvent.disconnect, TimerEvent.tick] rfl rfl (by decide)⟩

theorem toList_append (s t : String) : (s ++ t).toList = s.toList ++ t.toList :=
  String.data_append s t

theorem escapeCtrl_replicate_a (n : Nat) :
    (escapeCtrl ⟨List.replicate n 'a'⟩).toList = List.replicate n 'a' := by
  show (List.replicate n 'a').flatMap (fun c =>
      if c = '\r' then ['\\', 'r'] else if c = '\n' then ['\\', 'n'] else [c]) =
    List.replicate n 'a'
  induction n with
  | zero => rfl
  | succ n ih =>
      rw [List.replicate_succ, List.flatMap_cons, ih, if_neg (by decide), if_neg (by decide)]
      simp

theorem jsStrSliceLast_toList (n : Nat) (s : String) :
    (jsStrSliceLast n s).toList = s.toList.drop (s.toList.length - n) := rfl

/-- C10: when `handleAiAnalysis` reaches the service call, the log block
embedded in the prompt is the last 5000 characters of the
newline-joined rendering of the last 100 transcript entries; and the 5000
cut genuinely bites inside the 100-entry window: a single entry with a
6000-character payload renders to 6004 characters of which only the last
5000 survive into the prompt. -/
theorem analysis_prompt_window_truncation :
    (∀ st : SerialState, st.aiApiKey ≠ "" → st.logs.length ≠ 0 →
      handleAiAnalysisPrompt st =
        some (promptHead ++
          jsStrSliceLast 5000
            (String.intercalate "\n"
              ((st.logs.drop (st.logs.length - 100)).map (analysisLine st.isHexMode))) ++
          promptTail)) ∧
    (((combinedLogs [{ type := LogType.rx, data := ⟨List.replicate 6000 'a'⟩, hex := "" }] false).toList.length = 6004) ∧
     ((jsStrSliceLast 5000 (combinedLogs [{ type := LogType.rx, data := ⟨List.replicate 6000 'a'⟩, hex := "" }] false)).toList.length = 5000)) := by
  constructor
  · intro st h1 h2
    simp [handleAiAnalysisPrompt, h1, h2, analysisPrompt, combinedLogs, jsSliceLast]
  · have hdata : (combinedLogs [{ type := LogType.rx, data := ⟨List.replicate 6000 'a'⟩, hex := "" }] false).toList = 'R' :: 'X' :: ':' :: ' ' :: List.replicate 6000 'a' := by
      show ("RX" ++ ": " ++ escapeCtrl ⟨List.replicate 6000 'a'⟩).toList = _
      rw [toList_append, toList_append, escapeCtrl_replicate_a]
      rfl
    constructor
    · rw [hdata]
      simp only [List.length_cons, List.length_replicate]
    · rw [jsStrSliceLast_toList, hdata]
      simp only [List.length_drop, List.length_cons, List.length_replicate]

/-- Witness for C10's theorem: a state with an API key configured and a
one-entry log. -/
theorem analysis_prompt_window_truncation_witness :
    ({ initialState with aiApiKey := "key", logs := [{ type := LogType.info, data := "hello", hex := "" }] } : SerialState).aiApiKey ≠ "" ∧
    ({ initialState with aiApiKey := "key", logs := [{ type := LogType.info, data := "hello", hex := "" }] } : SerialState).logs.length ≠ 0 ∧
    handleAiAnalysisPrompt { initialState with aiApiKey := "key", logs := [{ type := LogType.info, data := "hello", hex := "" }] } =
      some (promptHead ++
        jsStrSliceLast 5000
          (String.intercalate "\n"
            ((({ initialState with aiApiKey := "key", logs := [{ type := LogType.info, data := "hello", hex := "" }] } : SerialState).logs.drop
              (({ initialState with aiApiKey := "key", logs := [{ type := LogType.info, data := "hello", hex := "" }] } : SerialState).logs.length - 100)).map
              (analysisLine ({ initialState with aiApiKey := "key", logs := [{ type := LogType.info, data := "hello", hex := "" }] } : SerialState).isHexMode))) ++
        promptTail) :=
  ⟨by decide, by decide,
   analysis_prompt_window_truncation.1 { initialState with aiApiKey := "key", logs := [{ type := LogType.info, data := "hello", hex := "" }] }
     (by decide) (by decide)⟩

end SerialTerm
